import Mathlib

/-!
A shallow embedding, in Lean 4, of the workload-environment subsystem of a
single-host container node agent (Go), together with theorems checking the
natural-language specification against the code.

Covered code:
* server/filesystem: DirectorySize (symlink-aware size walk), Chown
  (symlink-avoiding recursive ownership walk);
* environment/docker: calculateDockerMemory and calculateDockerAbsoluteCpu
  (both the cgroup/Linux and the working-set/Windows variants), Uptime,
  pollResources (the statistics poller loop);
* environment: ConfigureDocker / createDockerNetwork (network bootstrap)
  and Limits.AsContainerResources (resource-limit translation).

Go machine integers are modelled as Nat/Int with explicit wraparound
(mod 2^64) where the source can overflow; float64 arithmetic whose only
role is sign tests and exact small-integer computation is modelled over ℚ.
-/

namespace Wings

/-! ### Filesystem: DirectorySize (server/filesystem/disk_space_linux.go)

The walk visits every entry below the (already SafePath-resolved) root.
SafePath itself is not under the embedded sources, so the outcome of the
jail check on each symlink is carried on the symlink node: it either
resolves inside the root (ok), fails with the path-resolution error kind
(ErrCodePathResolution), or fails with some other error.  godirwalk is run
without FollowSymbolicLinks, so symlinks are leaves of the walk; a symlink
that passes the check is not a directory for the walk (its dirent mode is
ModeSymlink) and contributes its own lstat size. -/

/-- Outcome of the jail's SafePath check on one path. -/
inductive SafePathResult where
  | ok
  | pathResolutionError
  | otherError
deriving DecidableEq, Repr

/-- One entry of the on-disk tree under a workload root: a regular file
with its on-disk size, a directory with its children, or a symlink
carrying the SafePath outcome for its path and the lstat size of the link
object itself. -/
inductive FsEntry where
  | file (size : Int)
  | dir (children : List FsEntry)
  | symlink (check : SafePathResult) (linkSize : Int)

mutual

/-- Size contributed by one entry of the walk, mirroring the godirwalk
callback of DirectorySize: a symlink is first resolved via SafePath; on
ErrCodePathResolution everything under it is skipped (godirwalk.SkipThis),
on any other SafePath error the walk fails; a surviving non-directory
entry adds its lstat size; a directory adds its children. -/
def fsEntrySize : FsEntry → Except Unit Int
  | .file size => .ok size
  | .symlink check linkSize =>
    match check with
    | .ok => .ok linkSize
    | .pathResolutionError => .ok 0
    | .otherError => .error ()
  | .dir children => fsListSize children

/-- Total size of a list of sibling entries; the first failing entry
aborts the walk. -/
def fsListSize : List FsEntry → Except Unit Int
  | [] => .ok 0
  | e :: rest => do
    let a ← fsEntrySize e
    let b ← fsListSize rest
    pure (a + b)

end

/-- DirectorySize: resolve the requested directory through SafePath (any
failure there is returned with a zero size), then walk the resolved tree
accumulating sizes. -/
def DirectorySize (rootCheck : SafePathResult) (root : FsEntry) :
    Except Unit Int :=
  match rootCheck with
  | .ok => fsEntrySize root
  | _ => .error ()

/-! ### Filesystem: Chown (the windows variant under the config/filesystem
sources)

Chown first applies ownership (SetNamedSecurityInfo) to the resolved root
path itself; if the root is not a directory it returns at once; otherwise
a godirwalk over the root applies ownership to every visited entry except
symlinks: a symlinked directory answers godirwalk.SkipThis (its subtree is
never descended) and a symlinked file is left untouched.

Nodes of the tree are identified by their child-index path from the root
(the root is the empty path); the embedding computes the list of node
paths that receive an ownership change, in visit order. -/

/-- One entry of the tree walked by Chown. -/
inductive WEntry where
  | file
  | dir (children : List WEntry)
  | symlinkFile
  | symlinkDir (children : List WEntry)

mutual

/-- Paths receiving an ownership change when the walk visits the node at
path p, mirroring the godirwalk callback of Chown: symlinked directories
answer SkipThis and symlinked files are skipped, every other entry is
chowned; only non-symlink directories are descended. -/
def chownVisit (p : List Nat) : WEntry → List (List Nat)
  | .file => [p]
  | .symlinkFile => []
  | .symlinkDir _ => []
  | .dir children => p :: chownChildren p 0 children

/-- Walk the children of a directory in order, child i at path p ++ [i]. -/
def chownChildren (p : List Nat) (i : Nat) : List WEntry → List (List Nat)
  | [] => []
  | c :: rest => chownVisit (p ++ [i]) c ++ chownChildren p (i + 1) rest

end

/-- Chown: the root entry (path []) is chowned first; if the root is not a
directory the function returns immediately; otherwise the recursive walk
also starts at the root (godirwalk visits the walk root itself). -/
def Chown (root : WEntry) : List (List Nat) :=
  [] :: match root with
        | .dir children => chownVisit [] (.dir children)
        | _ => []

/-! ### Stats normalization, Variant A (environment/docker/stats_linux.go)

MemoryStats.Stats is a Go map from counter name to uint64; a lookup of an
absent key with the two-value form reports absence, the one-value form
yields the zero value. -/

/-- Memory statistics reported by the runtime: the raw usage counter and
the named-counter map (modelled as an association list). -/
structure MemoryStats where
  Usage : Nat
  Stats : List (String × Nat)

/-- Shared tail of calculateDockerMemory: the one-value map read of the
finer-granularity counter, absent meaning 0. -/
def inactiveFileAdjusted (stats : MemoryStats) : Nat :=
  let v := (stats.Stats.lookup "inactive_file").getD 0
  if v < stats.Usage then stats.Usage - v else stats.Usage

/-- calculateDockerMemory (Variant A, cgroup-accounted hosts): subtract
the total inactive file cache counter when present and smaller than
usage, else subtract the inactive file counter (zero-defaulted) when
smaller than usage, else return raw usage. -/
def calculateDockerMemory (stats : MemoryStats) : Nat :=
  match stats.Stats.lookup "total_inactive_file" with
  | some v =>
    if v < stats.Usage then stats.Usage - v else inactiveFileAdjusted stats
  | none => inactiveFileAdjusted stats

/-! ### CPU normalization (stats_linux.go and stats_windows.go)

The Linux variant works in float64 on values that fit exactly (deltas and
small products), modelled over ℚ; the rounding of Go's math.Round is half
away from zero.  The Windows variant works in uint64 with Go's wrapping
conversions, modelled as Nat arithmetic mod 2^64. -/

/-- Rounding of Go's math.Round: half away from zero. -/
def goRound (x : ℚ) : ℤ :=
  if x < 0 then -round (-x) else round x

/-- CPU sample pair fed to the Variant A computation: the current and
previous container totals, the current and previous whole-system totals
(all uint64 nanosecond counters), the reported online CPU count, and the
length of the per-CPU usage array. -/
structure CpuSampleLinux where
  PreTotalUsage : ℕ
  TotalUsage : ℕ
  PreSystemUsage : ℕ
  SystemUsage : ℕ
  OnlineCPUs : ℕ
  PercpuLen : ℕ

/-- calculateDockerAbsoluteCpu (Variant A): percent is
(cpuDelta / systemDelta) * cpus * 100 when both deltas are positive and 0
otherwise, with cpus falling back to the per-CPU array length when the
reported online count is zero; the result is rounded to 3 decimals. -/
def calculateDockerAbsoluteCpuLinux (s : CpuSampleLinux) : ℚ :=
  let cpuDelta : ℚ := (s.TotalUsage : ℚ) - (s.PreTotalUsage : ℚ)
  let systemDelta : ℚ := (s.SystemUsage : ℚ) - (s.PreSystemUsage : ℚ)
  let cpus : ℚ := if s.OnlineCPUs = 0 then (s.PercpuLen : ℚ) else (s.OnlineCPUs : ℚ)
  let percent : ℚ :=
    if systemDelta > 0 ∧ cpuDelta > 0 then cpuDelta / systemDelta * cpus * 100 else 0
  (goRound (percent * 1000) : ℚ) / 1000

/-- Go's conversion of an int64 to uint64 (two's complement reduction
mod 2^64). -/
def toUInt64 (x : ℤ) : ℕ := (x % (2 ^ 64 : ℤ)).toNat

/-- CPU sample pair fed to the Variant B computation: the elapsed
wall-clock nanoseconds between the two reads (an int64), the processor
count, and the two container totals in 100ns intervals (uint64). -/
structure CpuSampleWindows where
  ReadDeltaNs : ℤ
  NumProcs : ℕ
  PreTotalUsage : ℕ
  TotalUsage : ℕ

/-- calculateDockerAbsoluteCpu (Variant B): possIntervals is the elapsed
nanoseconds converted to uint64, divided by 100 and multiplied by the
processor count, in wrapping uint64 arithmetic; intervalsUsed is the
wrapping uint64 difference of the two totals; when possIntervals is
positive the result is intervalsUsed / possIntervals * 100, else 0. -/
def calculateDockerAbsoluteCpuWindows (s : CpuSampleWindows) : ℚ :=
  let possIntervals : ℕ := toUInt64 s.ReadDeltaNs / 100 * s.NumProcs % 2 ^ 64
  let intervalsUsed : ℕ := (s.TotalUsage + 2 ^ 64 - s.PreTotalUsage) % 2 ^ 64
  if possIntervals > 0 then (intervalsUsed : ℚ) / (possIntervals : ℚ) * 100 else 0

/-! ### Uptime and the stats poller loop (environment/docker resource
polling source)

Uptime inspects the container: an inspect failure is wrapped and returned
with 0; a container that is not running yields 0 with no error; otherwise
the runtime's StartedAt string is parsed (a parse failure is wrapped and
returned with 0) and the result is the wall-clock delta since the start
time in milliseconds.  Time values are modelled in milliseconds, and the
RFC3339 parser of the standard library is a parameter. -/

/-- State of a container as reported by ContainerInspect. -/
structure ContainerState where
  Running : Bool
  StartedAt : String

/-- Error kinds Uptime can return. -/
inductive UptimeErr where
  | inspectFailed
  | startTimeParse
deriving DecidableEq

/-- Uptime, as a function of the inspect outcome: milliseconds of uptime
paired with the returned error, if any. -/
def Uptime (now : ℤ) (parseRFC3339 : String → Option ℤ) :
    Except Unit ContainerState → ℤ × Option UptimeErr
  | .error _ => (0, some .inspectFailed)
  | .ok s =>
    if !s.Running then (0, none)
    else
      match parseRFC3339 s.StartedAt with
      | none => (0, some .startTimeParse)
      | some started => (now - started, none)

/-- Lifecycle states of a workload process. -/
inductive ProcessState where
  | offline
  | starting
  | running
  | stopping
deriving DecidableEq

/-- Outcome of decoding one sample from the statistics stream. -/
inductive DecodeOutcome where
  | ok
  | eofOrCanceled
  | otherError
deriving DecidableEq

/-- One iteration's inputs to the poll loop: whether the context was
observed cancelled at the top of the iteration, the decode outcome, and
the process state loaded after a successful decode. -/
structure PollTick where
  ctxDone : Bool
  decode : DecodeOutcome
  state : ProcessState

/-- Decode loop of pollResources: each iteration first checks context
cancellation (return ctx.Err()), then decodes (any decode failure stops
the loop: EOF and cancellation cleanly, other errors after a warning),
then reloads the process state and stops cleanly if it is offline, and
only then publishes a sample to the resource topic.  The result lists the
process state observed at each publish, in order. -/
def pollLoop : List PollTick → List ProcessState
  | [] => []
  | t :: rest =>
    if t.ctxDone then []
    else
      match t.decode with
      | .ok =>
        if t.state = .offline then [] else t.state :: pollLoop rest
      | _ => []

set_option linter.unusedVariables false in
/-- pollResources: fails immediately with an explicit error when the
environment is already offline; otherwise attaches to the stream, takes
the Uptime baseline (a failure there is only logged as a warning, carried
here as the ignored uptimeRes argument), and runs the decode loop. -/
def pollResources (st0 : ProcessState) (uptimeRes : ℤ × Option UptimeErr)
    (trace : List PollTick) : Except String (List ProcessState) :=
  if st0 = .offline then
    .error "cannot enable resource polling on a stopped server"
  else
    .ok (pollLoop trace)

/-! ### Network bootstrap (environment/docker.go and the network-create
source)

The docker daemon is modelled as the list of its networks, each carrying
the driver it was created with.  NetworkInspect finds a network by name;
the not-found error takes the create path.  On the found path the
NetworkResource carries the network's driver; on the create path the
NetworkResource variable keeps its zero value (every field the empty
string).  Transport failures of inspect and create, which ConfigureDocker
only propagates, are not modelled. -/

/-- Docker network section of the configuration (config package). -/
structure DockerNetworkConfiguration where
  Name : String
  Driver : String
  Interface : String
  ISPN : Bool
  V4Subnet : String
  V4Gateway : String
  V6Subnet : String
  V6Gateway : String
  IsInternal : Bool
  EnableICC : Bool
deriving DecidableEq

/-- State of the container daemon: the existing networks, name paired
with driver. -/
structure DockerDaemon where
  networks : List (String × String)
deriving DecidableEq

/-- NetworkInspect by name: the driver of the named network, or none for
the not-found error. -/
def networkInspect (d : DockerDaemon) (name : String) : Option String :=
  (d.networks.find? (fun nw => nw.1 = name)).map (fun nw => nw.2)

/-- createDockerNetwork: create the configured network with the
configured driver, then, for every driver other than host, overlay and
weavemesh, persist the configured v4 gateway as the node's interface
address. -/
def createDockerNetwork (cfg : DockerNetworkConfiguration)
    (d : DockerDaemon) : DockerNetworkConfiguration × DockerDaemon :=
  let d' : DockerDaemon := ⟨(cfg.Name, cfg.Driver) :: d.networks⟩
  let cfg' :=
    if cfg.Driver ≠ "host" ∧ cfg.Driver ≠ "overlay" ∧ cfg.Driver ≠ "weavemesh"
    then { cfg with Interface := cfg.V4Gateway }
    else cfg
  (cfg', d')

/-- Configuration update at the end of ConfigureDocker: store the
inspected NetworkResource's driver, then switch on it — host makes the
interface loopback with ISPN false, overlay and weavemesh clear the
interface with ISPN true, anything else only clears ISPN. -/
def applyNetworkUpdate (cfg : DockerNetworkConfiguration)
    (resourceDriver : String) : DockerNetworkConfiguration :=
  let c := { cfg with Driver := resourceDriver }
  if c.Driver = "host" then
    { c with Interface := "127.0.0.1", ISPN := false }
  else if c.Driver = "overlay" ∨ c.Driver = "weavemesh" then
    { c with Interface := "", ISPN := true }
  else
    { c with ISPN := false }

/-- ConfigureDocker: inspect the configured network name; when found,
update the configuration from the found driver; when not found, create
the network and update the configuration from the zero-valued
NetworkResource (driver the empty string).  The third component counts
the NetworkCreate calls performed. -/
def ConfigureDocker (cfg : DockerNetworkConfiguration) (d : DockerDaemon) :
    DockerNetworkConfiguration × DockerDaemon × ℕ :=
  match networkInspect d cfg.Name with
  | some drv => (applyNetworkUpdate cfg drv, d, 0)
  | none =>
    let (cfg', d') := createDockerNetwork cfg d
    (applyNetworkUpdate cfg' "", d', 1)

/-! ### Resource-limit translation (environment/settings_linux.go and the
windows variant)

The Limits methods BoundedMemoryLimit, ConvertedSwap, ConvertedCpuLimit
and ProcessLimit are not among the embedded sources; they are modelled
from the spec's resource-limit algorithm. -/

/-- Logical resource limits of one workload. -/
structure Limits where
  MemoryLimit : ℤ
  Swap : ℤ
  CpuLimit : ℤ
  IoWeight : ℕ
  Threads : String
  OOMDisabled : Bool
  ProcessLimitV : ℤ
deriving DecidableEq

/-- Modelled from the spec: BoundedMemoryLimit is not among the embedded
sources; the spec's algorithm is memory bytes = MB × 1,000,000. -/
def Limits.BoundedMemoryLimit (l : Limits) : ℤ :=
  l.MemoryLimit * 1000000

/-- Modelled from the spec: ConvertedSwap is not among the embedded
sources; the spec's algorithm is memory bytes plus swap MB × 1,000,000
when swap ≥ 0, and the unlimited sentinel −1 when swap < 0. -/
def Limits.ConvertedSwap (l : Limits) : ℤ :=
  if l.Swap < 0 then -1 else l.BoundedMemoryLimit + l.Swap * 1000000

/-- Modelled from the spec: ConvertedCpuLimit is not among the embedded
sources; the spec's algorithm is quota = (CPU percent ÷ 100) × the fixed
period 100,000, i.e. percent × 1,000. -/
def Limits.ConvertedCpuLimit (l : Limits) : ℤ :=
  l.CpuLimit * 1000

/-- Platform resource descriptor (container.Resources), restricted to the
fields the two variants populate; Go zero values stand for omitted
fields, pointer fields are Options. -/
structure ContainerResources where
  Memory : ℤ
  MemoryReservation : ℤ
  MemorySwap : ℤ
  CPUQuota : ℤ
  CPUPeriod : ℤ
  CPUShares : ℤ
  BlkioWeight : ℕ
  OomKillDisable : Option Bool
  CpusetCpus : String
  PidsLimit : Option ℤ
deriving DecidableEq

/-- AsContainerResources (settings_linux.go): the full translation with
swap, period, pids limit and the OOM toggle. -/
def Limits.AsContainerResources (l : Limits) : ContainerResources :=
  { Memory := l.BoundedMemoryLimit
    MemoryReservation := l.MemoryLimit * 1000000
    MemorySwap := l.ConvertedSwap
    CPUQuota := l.ConvertedCpuLimit
    CPUPeriod := 100000
    CPUShares := 1024
    BlkioWeight := l.IoWeight
    OomKillDisable := some l.OOMDisabled
    CpusetCpus := l.Threads
    PidsLimit := some l.ProcessLimitV }

/-- AsContainerResources, windows variant: only memory, quota, shares and
the cpuset are populated; every other field keeps its zero value. -/
def Limits.AsContainerResourcesWindows (l : Limits) : ContainerResources :=
  { Memory := l.BoundedMemoryLimit
    MemoryReservation := 0
    MemorySwap := 0
    CPUQuota := l.ConvertedCpuLimit
    CPUPeriod := 0
    CPUShares := 1024
    BlkioWeight := 0
    OomKillDisable := none
    CpusetCpus := l.Threads
    PidsLimit := none }

/-! ## Theorems -/

/-- Skipping one path-resolution-failing symlink leaves the size of a
sibling list unchanged. -/
theorem fsListSize_skip_insert (s : Int) (xs ys : List FsEntry) :
    fsListSize (xs ++ FsEntry.symlink .pathResolutionError s :: ys) =
      fsListSize (xs ++ ys) := by
  induction xs with
  | nil =>
    show fsListSize (FsEntry.symlink .pathResolutionError s :: ys) = fsListSize ys
    cases h : fsListSize ys <;>
      simp [fsListSize, fsEntrySize, h, Bind.bind, Except.bind, Pure.pure,
        Except.pure]
  | cons x xs ih =>
    show fsListSize (x :: (xs ++ _)) = fsListSize (x :: (xs ++ ys))
    simp only [fsListSize, ih]

/-- C1: DirectorySize on a root holding one 100-byte regular file and one
symlink whose jail check fails with the path-resolution error kind
returns exactly 100 with no error; in general a symlinked entry is first
resolved by the jail check, a path-resolution failure makes the walk skip
everything under the symlink (it contributes 0 and never fails the call),
and inserting such a symlink anywhere among a directory's children leaves
the directory's size unchanged. -/
theorem DirectorySize_skips_escaping_symlinks :
    DirectorySize .ok (.dir [.file 100, .symlink .pathResolutionError 999]) =
      .ok 100
    ∧ (∀ s : Int, fsEntrySize (.symlink .pathResolutionError s) = .ok 0)
    ∧ (∀ (xs ys : List FsEntry) (s : Int),
        fsEntrySize (.dir (xs ++ FsEntry.symlink .pathResolutionError s :: ys)) =
          fsEntrySize (.dir (xs ++ ys))) := by
  refine ⟨rfl, fun s => rfl, fun xs ys s => ?_⟩
  show fsListSize _ = fsListSize _
  exact fsListSize_skip_insert s xs ys

/-- C2: Chown applies ownership to the root entry first (the root's path
heads the applied list); a root that is not a directory is chowned alone
and the call returns immediately; during the walk a symlinked directory
is answered with SkipThis so nothing below it is visited or chowned, a
symlinked file is left untouched, and the remaining entries — regular
files and directories — each have ownership applied at their own path. -/
theorem Chown_never_follows_symlinks :
    (∀ root : WEntry, (Chown root).head? = some [])
    ∧ Chown .file = [[]]
    ∧ Chown .symlinkFile = [[]]
    ∧ (∀ cs : List WEntry, Chown (.symlinkDir cs) = [[]])
    ∧ (∀ (p : List Nat) (cs : List WEntry), chownVisit p (.symlinkDir cs) = [])
    ∧ (∀ p : List Nat, chownVisit p .symlinkFile = [])
    ∧ (∀ p : List Nat, chownVisit p .file = [p])
    ∧ (∀ (p : List Nat) (cs : List WEntry),
        chownVisit p (.dir cs) = p :: chownChildren p 0 cs) := by
  refine ⟨fun root => ?_, rfl, rfl, fun cs => rfl, fun p cs => rfl,
    fun p => rfl, fun p => rfl, fun p cs => rfl⟩
  cases root <;> rfl

/-- C3: Variant A memory normalization follows the code's cascade — when
the total inactive file counter is present and smaller than usage the
result is usage minus it; otherwise, when the zero-defaulted inactive
file counter is smaller than usage, the result is usage minus that;
otherwise the raw usage is returned; and in particular, whenever every
present occurrence of either counter is at least the usage, the
normalized memory equals the raw usage. -/
theorem calculateDockerMemory_normalization :
    (∀ (s : MemoryStats) (v : ℕ),
        s.Stats.lookup "total_inactive_file" = some v → v < s.Usage →
        calculateDockerMemory s = s.Usage - v)
    ∧ (∀ s : MemoryStats,
        (∀ v, s.Stats.lookup "total_inactive_file" = some v → s.Usage ≤ v) →
        (s.Stats.lookup "inactive_file").getD 0 < s.Usage →
        calculateDockerMemory s =
          s.Usage - (s.Stats.lookup "inactive_file").getD 0)
    ∧ (∀ s : MemoryStats,
        (∀ v, s.Stats.lookup "total_inactive_file" = some v → s.Usage ≤ v) →
        s.Usage ≤ (s.Stats.lookup "inactive_file").getD 0 →
        calculateDockerMemory s = s.Usage)
    ∧ (∀ s : MemoryStats,
        (∀ v, s.Stats.lookup "total_inactive_file" = some v → s.Usage ≤ v) →
        (∀ v, s.Stats.lookup "inactive_file" = some v → s.Usage ≤ v) →
        calculateDockerMemory s = s.Usage) := by
  have hfall :
      ∀ s : MemoryStats,
        (∀ v, s.Stats.lookup "total_inactive_file" = some v → s.Usage ≤ v) →
        calculateDockerMemory s = inactiveFileAdjusted s := by
    intro s htot
    cases h : s.Stats.lookup "total_inactive_file" with
    | none => simp [calculateDockerMemory, h]
    | some v =>
      simp [calculateDockerMemory, h, Nat.not_lt.mpr (htot v h)]
  refine ⟨?_, ?_, ?_, ?_⟩
  · intro s v hv hlt
    simp [calculateDockerMemory, hv, hlt]
  · intro s htot hlt
    rw [hfall s htot]
    simp [inactiveFileAdjusted, hlt]
  · intro s htot hge
    rw [hfall s htot]
    simp [inactiveFileAdjusted, Nat.not_lt.mpr hge]
  · intro s htot hin
    rw [hfall s htot]
    cases h : s.Stats.lookup "inactive_file" with
    | none => simp [inactiveFileAdjusted, h]
    | some w => simp [inactiveFileAdjusted, h, Nat.not_lt.mpr (hin w h)]

/-- C3 witness: with usage 100 and a present total inactive file counter
of 30, the normalized memory is 70. -/
theorem calculateDockerMemory_normalization_witness :
    calculateDockerMemory ⟨100, [("total_inactive_file", 30)]⟩ = 70 := by
  have h := calculateDockerMemory_normalization.1
    ⟨100, [("total_inactive_file", 30)]⟩ 30 (by rfl) (by decide)
  simpa using h

/-- C4 counterexample: the claim fails for the Variant B (Windows)
implementation — with a positive elapsed time of 1000ns, one processor,
and a container counter that went from 5 down to 0 (so the container CPU
delta is −5 ≤ 0), the unsigned subtraction wraps around and the function
returns a huge nonzero percent instead of 0.0. -/
theorem calculateDockerAbsoluteCpu_windows_not_guarded :
    (((⟨1000, 1, 5, 0⟩ : CpuSampleWindows).TotalUsage : ℤ) -
        ((⟨1000, 1, 5, 0⟩ : CpuSampleWindows).PreTotalUsage : ℤ) ≤ 0)
    ∧ calculateDockerAbsoluteCpuWindows ⟨1000, 1, 5, 0⟩ ≠ 0 := by
  constructor
  · decide
  · simp only [calculateDockerAbsoluteCpuWindows, toUInt64]
    norm_num
    decide

/-- C4 (amended): the Variant A (Linux) implementation returns 0.0
whenever the system delta or the container delta is non-positive; the
Variant B (Windows) implementation returns 0.0 whenever its unsigned
possible-interval count is zero and whenever the container counter delta
is exactly zero, but a strictly decreasing counter or a strictly negative
elapsed time wraps in uint64 arithmetic and is not guarded. -/
theorem calculateDockerAbsoluteCpu_zero_guards :
    (∀ s : CpuSampleLinux,
        ((s.SystemUsage : ℤ) - (s.PreSystemUsage : ℤ) ≤ 0 ∨
          (s.TotalUsage : ℤ) - (s.PreTotalUsage : ℤ) ≤ 0) →
        calculateDockerAbsoluteCpuLinux s = 0)
    ∧ (∀ s : CpuSampleWindows,
        toUInt64 s.ReadDeltaNs / 100 * s.NumProcs % 2 ^ 64 = 0 →
        calculateDockerAbsoluteCpuWindows s = 0)
    ∧ (∀ s : CpuSampleWindows, s.TotalUsage = s.PreTotalUsage →
        calculateDockerAbsoluteCpuWindows s = 0) := by
  refine ⟨?_, ?_, ?_⟩
  · intro s h
    have hq : ¬((s.SystemUsage : ℚ) - (s.PreSystemUsage : ℚ) > 0 ∧
        (s.TotalUsage : ℚ) - (s.PreTotalUsage : ℚ) > 0) := by
      rcases h with h | h
      · intro hc
        have h' : ((s.SystemUsage : ℚ) - (s.PreSystemUsage : ℚ)) ≤ 0 := by
          exact_mod_cast h
        linarith [hc.1]
      · intro hc
        have h' : ((s.TotalUsage : ℚ) - (s.PreTotalUsage : ℚ)) ≤ 0 := by
          exact_mod_cast h
        linarith [hc.2]
    simp only [calculateDockerAbsoluteCpuLinux]
    rw [if_neg hq]
    simp [goRound]
  · intro s h
    have h' : ¬(toUInt64 s.ReadDeltaNs / 100 * s.NumProcs % 2 ^ 64 > 0) := by
      omega
    simp only [calculateDockerAbsoluteCpuWindows]
    rw [if_neg h']
  · intro s h
    simp only [calculateDockerAbsoluteCpuWindows, h, Nat.add_sub_cancel_left,
      Nat.mod_self, Nat.cast_zero, zero_div, zero_mul, ite_self]

/-- C4 witness: a Linux sample whose container counter fell from 10 to 4
(delta −6 ≤ 0) normalizes to 0. -/
theorem calculateDockerAbsoluteCpu_zero_guards_witness :
    calculateDockerAbsoluteCpuLinux ⟨10, 4, 0, 100, 2, 0⟩ = 0 :=
  calculateDockerAbsoluteCpu_zero_guards.1 ⟨10, 4, 0, 100, 2, 0⟩
    (Or.inr (by decide))

/-- C5: the poller never publishes a sample while the observed state is
Offline — every state observed at a publish point is non-Offline, an
iteration that observes Offline publishes nothing and ends the loop in
that same decode cycle, and a poll started on an offline environment
fails immediately without publishing anything. -/
theorem pollResources_never_publishes_offline :
    (∀ trace : List PollTick, ∀ st ∈ pollLoop trace, st ≠ .offline)
    ∧ (∀ (done : Bool) (d : DecodeOutcome) (rest : List PollTick),
        pollLoop (⟨done, d, .offline⟩ :: rest) = [])
    ∧ (∀ (ur : ℤ × Option UptimeErr) (trace : List PollTick),
        pollResources .offline ur trace =
          .error "cannot enable resource polling on a stopped server") := by
  refine ⟨?_, ?_, fun ur trace => rfl⟩
  · intro trace
    induction trace with
    | nil => intro st h; simp [pollLoop] at h
    | cons t rest ih =>
      intro st h
      by_cases hd : t.ctxDone
      · simp [pollLoop, hd] at h
      · cases hdec : t.decode with
        | ok =>
          by_cases hst : t.state = .offline
          · simp [pollLoop, hd, hdec, hst] at h
          · simp [pollLoop, hd, hdec, hst] at h
            rcases h with h | h
            · simpa [h] using hst
            · exact ih st h
        | eofOrCanceled => simp [pollLoop, hd, hdec] at h
        | otherError => simp [pollLoop, hd, hdec] at h
  · intro done d rest
    cases done <;> cases d <;> simp [pollLoop]

/-- C5 witness: a one-tick trace decoded in the Running state publishes
one sample whose observed state is not Offline. -/
theorem pollResources_never_publishes_offline_witness :
    ProcessState.running ≠ ProcessState.offline :=
  pollResources_never_publishes_offline.1
    [⟨false, .ok, .running⟩] .running (by simp [pollLoop])

/-- C9: Uptime returns 0 with no error whenever inspect succeeds and
reports the container as not running; when it is running and the start
timestamp parses, the result is the wall-clock delta since that start in
milliseconds; a parse failure is reported as an error with a 0 result;
and in the poller that error is not fatal — the poll outcome is
independent of the uptime result. -/
theorem Uptime_not_running_zero :
    (∀ (now : ℤ) (parse : String → Option ℤ) (s : ContainerState),
        s.Running = false → Uptime now parse (.ok s) = (0, none))
    ∧ (∀ (now : ℤ) (parse : String → Option ℤ) (s : ContainerState)
        (started : ℤ), s.Running = true → parse s.StartedAt = some started →
        Uptime now parse (.ok s) = (now - started, none))
    ∧ (∀ (now : ℤ) (parse : String → Option ℤ) (s : ContainerState),
        s.Running = true → parse s.StartedAt = none →
        Uptime now parse (.ok s) = (0, some .startTimeParse))
    ∧ (∀ (st0 : ProcessState) (ur ur' : ℤ × Option UptimeErr)
        (trace : List PollTick),
        pollResources st0 ur trace = pollResources st0 ur' trace) := by
  refine ⟨?_, ?_, ?_, fun st0 ur ur' trace => rfl⟩
  · intro now parse s h
    simp [Uptime, h]
  · intro now parse s started hrun hparse
    simp [Uptime, hrun, hparse]
  · intro now parse s hrun hparse
    simp [Uptime, hrun, hparse]

/-- C9 witness: an inspect result reporting a stopped container yields 0
milliseconds and no error. -/
theorem Uptime_not_running_zero_witness :
    Uptime 12345 (fun _ => none) (.ok ⟨false, "2020-01-01T00:00:00Z"⟩) =
      (0, none) :=
  Uptime_not_running_zero.1 12345 (fun _ => none)
    ⟨false, "2020-01-01T00:00:00Z"⟩ rfl

/-- Every branch of the found-path configuration update leaves the stored
network name unchanged. -/
theorem applyNetworkUpdate_Name (cfg : DockerNetworkConfiguration)
    (drv : String) : (applyNetworkUpdate cfg drv).Name = cfg.Name := by
  unfold applyNetworkUpdate
  dsimp only
  split
  · rfl
  · split <;> rfl

/-- Creating the configured network does not change the configured
name. -/
theorem createDockerNetwork_Name (cfg : DockerNetworkConfiguration)
    (d : DockerDaemon) : (createDockerNetwork cfg d).1.Name = cfg.Name := by
  unfold createDockerNetwork
  split <;> rfl

/-- ConfigureDocker performs no create when inspect finds the configured
network. -/
theorem ConfigureDocker_found_no_create (cfg : DockerNetworkConfiguration)
    (d : DockerDaemon) (drv : String)
    (h : networkInspect d cfg.Name = some drv) :
    (ConfigureDocker cfg d).2.2 = 0 := by
  simp [ConfigureDocker, h]

/-- C6: EnsureNetwork is idempotent — when the configured network does
not yet exist, the first call performs exactly one create, the second
call's inspect finds the network the first call created (so it performs
zero creates), and the two calls together perform exactly one create. -/
theorem ConfigureDocker_idempotent (cfg : DockerNetworkConfiguration)
    (d : DockerDaemon) (h : networkInspect d cfg.Name = none) :
    (ConfigureDocker cfg d).2.2 = 1
    ∧ networkInspect (ConfigureDocker cfg d).2.1
        (ConfigureDocker cfg d).1.Name = some cfg.Driver
    ∧ (ConfigureDocker (ConfigureDocker cfg d).1
        (ConfigureDocker cfg d).2.1).2.2 = 0 := by
  have hfind : networkInspect
      (createDockerNetwork cfg d).2 cfg.Name = some cfg.Driver := by
    simp [networkInspect, createDockerNetwork, List.find?]
  have hd2 : (ConfigureDocker cfg d).2.1 = (createDockerNetwork cfg d).2 := by
    simp [ConfigureDocker, h]
  have hname : (ConfigureDocker cfg d).1.Name = cfg.Name := by
    simp [ConfigureDocker, h, applyNetworkUpdate_Name, createDockerNetwork_Name]
  refine ⟨by simp [ConfigureDocker, h], ?_, ?_⟩
  · rw [hd2, hname]
    exact hfind
  · have hfound : networkInspect (ConfigureDocker cfg d).2.1
        (ConfigureDocker cfg d).1.Name = some cfg.Driver := by
      rw [hd2, hname]; exact hfind
    exact ConfigureDocker_found_no_create _ _ _ hfound

/-- C6 witness: with an empty daemon and the default network name, two
successive calls perform one create then zero creates. -/
theorem ConfigureDocker_idempotent_witness :
    (ConfigureDocker ⟨"pterodactyl_nw", "bridge", "172.18.0.1", false,
        "172.18.0.0/16", "172.18.0.1", "", "", false, true⟩ ⟨[]⟩).2.2 = 1 := by
  have h := ConfigureDocker_idempotent
    ⟨"pterodactyl_nw", "bridge", "172.18.0.1", false,
      "172.18.0.0/16", "172.18.0.1", "", "", false, true⟩ ⟨[]⟩ rfl
  exact h.1

/-- C7: on the found path the configuration is updated from the found
driver — the stored driver becomes the found one; driver host makes the
interface loopback with ISPN false; drivers overlay and weavemesh clear
the interface with ISPN true; any other driver leaves ISPN false. -/
theorem ConfigureDocker_found_driver_semantics
    (cfg : DockerNetworkConfiguration) (d : DockerDaemon) (drv : String)
    (h : networkInspect d cfg.Name = some drv) :
    (ConfigureDocker cfg d).1.Driver = drv
    ∧ (drv = "host" → (ConfigureDocker cfg d).1.Interface = "127.0.0.1"
        ∧ (ConfigureDocker cfg d).1.ISPN = false)
    ∧ (drv = "overlay" ∨ drv = "weavemesh" →
        (ConfigureDocker cfg d).1.Interface = ""
        ∧ (ConfigureDocker cfg d).1.ISPN = true)
    ∧ (drv ≠ "host" → drv ≠ "overlay" → drv ≠ "weavemesh" →
        (ConfigureDocker cfg d).1.ISPN = false) := by
  have hc : (ConfigureDocker cfg d).1 = applyNetworkUpdate cfg drv := by
    simp [ConfigureDocker, h]
  rw [hc]
  unfold applyNetworkUpdate
  dsimp only
  refine ⟨?_, ?_, ?_, ?_⟩
  · split
    · rfl
    · split <;> rfl
  · intro hh
    subst hh
    simp
  · intro hh
    rcases hh with hh | hh <;> subst hh <;> simp
  · intro h1 h2 h3
    rw [if_neg h1, if_neg (by simp [h2, h3])]

/-- C7 witness: a daemon already holding the configured network with the
host driver makes the interface loopback and ISPN false. -/
theorem ConfigureDocker_found_driver_semantics_witness :
    (ConfigureDocker ⟨"pterodactyl_nw", "bridge", "172.18.0.1", false,
        "172.18.0.0/16", "172.18.0.1", "", "", false, true⟩
      ⟨[("pterodactyl_nw", "host")]⟩).1.Interface = "127.0.0.1" := by
  have h := ConfigureDocker_found_driver_semantics
    ⟨"pterodactyl_nw", "bridge", "172.18.0.1", false,
      "172.18.0.0/16", "172.18.0.1", "", "", false, true⟩
    ⟨[("pterodactyl_nw", "host")]⟩ "host" rfl
  exact (h.2.1 rfl).1

/-- C10: on the create path the configuration update reads the driver off
the zero-valued inspect result — the stored driver becomes the empty
string and the switch takes the default branch (ISPN false) — even though
the network itself was created with the configured driver. -/
theorem ConfigureDocker_create_path_zero_driver
    (cfg : DockerNetworkConfiguration) (d : DockerDaemon)
    (h : networkInspect d cfg.Name = none) :
    (ConfigureDocker cfg d).1.Driver = ""
    ∧ (ConfigureDocker cfg d).1.ISPN = false
    ∧ (ConfigureDocker cfg d).2.1.networks.head? =
        some (cfg.Name, cfg.Driver) := by
  have hc : (ConfigureDocker cfg d).1 =
      applyNetworkUpdate (createDockerNetwork cfg d).1 "" := by
    simp [ConfigureDocker, h]
  have hd : (ConfigureDocker cfg d).2.1 = (createDockerNetwork cfg d).2 := by
    simp [ConfigureDocker, h]
  refine ⟨?_, ?_, ?_⟩
  · rw [hc]
    unfold applyNetworkUpdate
    rw [if_neg (by simp), if_neg (by simp)]
  · rw [hc]
    unfold applyNetworkUpdate
    rw [if_neg (by simp), if_neg (by simp)]
  · rw [hd]
    unfold createDockerNetwork
    rfl

/-- C10 witness: with the default overlay-less configuration (driver nat)
and an empty daemon, the create path stores the empty driver with ISPN
false while the created network carries the configured driver. -/
theorem ConfigureDocker_create_path_zero_driver_witness :
    (ConfigureDocker ⟨"pterodactyl_nw", "nat", "172.18.0.1", true,
        "172.18.0.0/16", "172.18.0.1", "", "", false, true⟩ ⟨[]⟩).1.Driver
      = "" := by
  have h := ConfigureDocker_create_path_zero_driver
    ⟨"pterodactyl_nw", "nat", "172.18.0.1", true,
      "172.18.0.0/16", "172.18.0.1", "", "", false, true⟩ ⟨[]⟩ rfl
  exact h.1

/-- C8: converting limits of 512 MB memory, swap −1 and 150 percent CPU
yields 512,000,000 memory bytes, the unlimited swap sentinel −1, a CPU
quota of 150,000 and the fixed CPU period 100,000; in general memory
bytes are MB × 1,000,000, the period is the constant 100,000, the quota
is percent × 1,000, and a negative swap maps to the sentinel. -/
theorem AsContainerResources_scenario :
    ((⟨512, -1, 150, 0, "", false, 0⟩ : Limits).AsContainerResources.Memory
        = 512000000
      ∧ (⟨512, -1, 150, 0, "", false, 0⟩ : Limits).AsContainerResources.MemorySwap
        = -1
      ∧ (⟨512, -1, 150, 0, "", false, 0⟩ : Limits).AsContainerResources.CPUQuota
        = 150000
      ∧ (⟨512, -1, 150, 0, "", false, 0⟩ : Limits).AsContainerResources.CPUPeriod
        = 100000)
    ∧ (∀ l : Limits,
        l.AsContainerResources.Memory = l.MemoryLimit * 1000000
        ∧ l.AsContainerResources.CPUPeriod = 100000
        ∧ l.AsContainerResources.CPUQuota = l.CpuLimit * 1000
        ∧ l.AsContainerResources.MemorySwap =
            (if l.Swap < 0 then -1
              else l.MemoryLimit * 1000000 + l.Swap * 1000000)) := by
  refine ⟨⟨by decide, by decide, by decide, by decide⟩, fun l => ⟨rfl, rfl, rfl, rfl⟩⟩

end Wings
